import Mathlib

set_option autoImplicit false

namespace Fiboa

/-- Cell values of the working table used by the fiboa conversion code.
Geometries are opaque handles (the geometric operations used by the fi
dataset are passed in as parameters where needed).  A datetime value
carries year, month, day and a flag recording whether the instant is
timezone-aware (pandas timestamps are tz-aware exactly when requested). -/
inductive Value where
  | null : Value
  | str : String → Value
  | boolV : Bool → Value
  | intV : Int → Value
  | ratV : ℚ → Value
  | strList : List String → Value
  | dt : Nat → Nat → Nat → Bool → Value
  | geomV : Nat → Value
deriving DecidableEq, Repr

/-- Modelled from the spec: the Tabular Record Set (section 3) — an ordered
sequence of named columns, each an ordered list of values aligned by row
index.  The conversion engine holding it (convert_utils) is not under src. -/
def Table : Type := List (String × List Value)

/-- Look up a column by name (first match), as a dataframe column access. -/
def lookupCol : Table → String → Option (List Value)
  | [], _ => none
  | c :: t, name => if c.1 == name then some c.2 else lookupCol t name

/-- Column assignment: replace the (first) column of the given name in
place, or append a new column at the end, as a dataframe assignment. -/
def setCol : Table → String → List Value → Table
  | [], name, col => [(name, col)]
  | c :: t, name, col => if c.1 == name then (name, col) :: t else c :: setCol t name col

/-- The list of column names of a table. -/
def colNames (t : Table) : List String := t.map (fun c => c.1)

/-- Traverse a list with a fallible function, failing if any element fails
(the shape shared by the fallible column operations below). -/
def optTraverse {α β : Type} (f : α → Option β) : List α → Option (List β)
  | [] => some []
  | a :: l =>
    match f a, optTraverse f l with
    | some b, some bs => some (b :: bs)
    | _, _ => none

/-- Whitespace characters matched by a Python regex \s on a str. -/
def isPySpace (c : Char) : Bool :=
  c == ' ' || c == '\t' || c == '\n' || c == '\r' || c == '\x0b' || c == '\x0c'

/-- Drop leading Python whitespace. -/
def trimLeftChars (l : List Char) : List Char := l.dropWhile isPySpace

/-- Drop trailing Python whitespace. -/
def trimRightChars (l : List Char) : List Char := (l.reverse.dropWhile isPySpace).reverse

/-- Split a character list at every occurrence of the separator. -/
def splitChar (c : Char) : List Char → List (List Char)
  | [] => [[]]
  | a :: rest =>
    let r := splitChar c rest
    if a == c then [] :: r
    else
      match r with
      | [] => [[a]]
      | p :: ps => (a :: p) :: ps

/-- The numeric value of a decimal digit character. -/
def digitVal (c : Char) : Option Nat :=
  let n := c.toNat
  if 48 ≤ n && n ≤ 57 then some (n - 48) else none

/-- Parse a nonempty all-digit character list as a natural number. -/
def natFromDigits (cs : List Char) : Option Nat :=
  match cs with
  | [] => none
  | _ => cs.foldl (fun acc c => acc.bind (fun a => (digitVal c).map (fun d => a * 10 + d))) (some 0)

/-- Model of re.split with the compiled pattern delim (de_th.py line 55,
a comma with surrounding whitespace): split on each comma, stripping the
whitespace adjacent to the comma; whitespace at the very start or end of
the string is not part of any delimiter and stays attached. -/
def splitDelim (s : String) : List String :=
  let ps := splitChar ',' s.toList
  let n := ps.length
  ps.enum.map (fun ip =>
    let l1 := if ip.1 == 0 then ip.2 else trimLeftChars ip.2
    let l2 := if ip.1 == n - 1 then l1 else trimRightChars l1
    String.mk l2)

/-- Model of pandas Series.map with a dict (de_th.py lines 57-59), applied
to one cell: a string cell is looked up in the dict (a dict value of None
is a null); any cell that is not a dict key — including a missing value —
becomes null (NaN). -/
def mapDict (d : List (String × Value)) : Value → Value
  | Value.str s =>
    match d.find? (fun p => p.1 == s) with
    | some p => p.2
    | none => Value.null
  | _ => Value.null

/-- Model of pandas Series.fillna (de_th.py lines 57-58), applied to one
cell: replace a null cell by the given value. -/
def fillna (w : Value) : Value → Value
  | Value.null => w
  | v => v

/-- The dict of the AFO and KOND_LE migrations (de_th.py lines 57-58). -/
def afoDict : List (String × Value) := [("J", Value.boolV true)]

/-- The dict of the AENDERUNG migration (de_th.py line 59). -/
def aenderungDict : List (String × Value) :=
  [("Geaendert", Value.boolV true), ("Unveraendert", Value.boolV false), ("Neu", Value.null)]

/-- The AFO column migration (de_th.py line 57). -/
def afoMigration (col : List Value) : List Value :=
  (col.map (mapDict afoDict)).map (fillna (Value.boolV false))

/-- The KOND_LE column migration (de_th.py line 58). -/
def kondLeMigration (col : List Value) : List Value :=
  (col.map (mapDict afoDict)).map (fillna (Value.boolV false))

/-- The AENDERUNG column migration (de_th.py line 59). -/
def aenderungMigration (col : List Value) : List Value :=
  col.map (mapDict aenderungDict)

/-- Model of pandas Series.str.split with a regex (de_th.py line 60),
applied to one cell: a string cell is split into a list of strings; a
non-string cell, including a missing value, becomes null. -/
def strSplitCell : Value → Value
  | Value.str s => Value.strList (splitDelim s)
  | _ => Value.null

/-- The FBI_VJ column migration (de_th.py line 60). -/
def fbiVjMigration (col : List Value) : List Value :=
  col.map strSplitCell

/-- Parse a day.month.year string, as strptime does for the format on
de_th.py line 65: exactly three dot-separated digit fields, with the day
and month in range. -/
def parseDMY (s : String) : Option (Nat × Nat × Nat) :=
  match splitChar '.' s.toList with
  | [d, m, y] =>
    match natFromDigits d, natFromDigits m, natFromDigits y with
    | some dn, some mn, some yn =>
      if 1 ≤ dn ∧ dn ≤ 31 ∧ 1 ≤ mn ∧ mn ≤ 12 then some (dn, mn, yn) else none
    | _, _, _ => none
  | _ => none

/-- Model of pandas.to_datetime on a column of day.month.year strings
(de_th.py line 65): a missing cell becomes NaT (null); an unparsable cell
raises, so the whole operation fails; the format carries no timezone, so
the resulting timestamps are timezone-aware exactly when the call passes
utc=True. -/
def toDatetimeDMY (utc : Bool) (col : List Value) : Option (List Value) :=
  optTraverse (fun v =>
    match v with
    | Value.null => some Value.null
    | Value.str s => (parseDMY s).map (fun p => Value.dt p.2.2 p.2.1 p.1 utc)
    | _ => none) col

/-- The de_th global migration (de_th.py lines 63-66): parse the GEO_UPDAT
column with format day.month.year and utc=True, and write it back; a
missing column or an unparsable value raises, i.e. fails the run. -/
def de_th_migrate (t : Table) : Option Table :=
  (lookupCol t "GEO_UPDAT").bind (fun col =>
  (toDatetimeDMY true col).map (fun col2 =>
  setCol t "GEO_UPDAT" col2))

/-- The de_th source-to-target column map (de_th.py lines 37-53); LF is
deliberately not a key, so it is pruned after filtering. -/
def de_th_COLUMNS : List (String × String) :=
  [("geometry", "geometry"),
   ("BEZUGSJAHR", "valid_year"),
   ("FBI", "flik"),
   ("FBI_KURZ", "id"),
   ("FB_FLAECHE", "area"),
   ("FBI_VJ", "flik_last_year"),
   ("FB_FL_VJ", "area_last_year"),
   ("TK10", "tk10"),
   ("AFO", "afo"),
   ("BNK", "bnk"),
   ("KOND_LE", "kond_le"),
   ("AENDERUNG", "change"),
   ("GEO_UPDAT", "determination_datetime")]

/-- The de_th column migrations (de_th.py lines 56-61). -/
def de_th_COLUMN_MIGRATIONS : List (String × (List Value → List Value)) :=
  [("AFO", afoMigration),
   ("KOND_LE", kondLeMigration),
   ("AENDERUNG", aenderungMigration),
   ("FBI_VJ", fbiVjMigration)]

/-- The de_th row-filter predicate on the LF column (de_th.py line 71):
elementwise equality with the string LF (a missing value compares false). -/
def lfPredicate (v : Value) : Bool := v == Value.str "LF"

/-- The de_th column filters (de_th.py lines 70-72). -/
def de_th_COLUMN_FILTERS : List (String × (Value → Bool)) :=
  [("LF", lfPredicate)]

/-- Array item constraints of a dataset-declared property schema. -/
structure ItemSchema where
  type : String
  minLength : Option Nat
  maxLength : Option Nat
  pattern : Option String
deriving DecidableEq, Repr

/-- A dataset-declared property schema fragment. -/
structure PropSchema where
  type : String
  exclusiveMinimum : Option ℚ
  maximum : Option ℚ
  items : Option ItemSchema
deriving DecidableEq, Repr

/-- The required list of the de_th missing-schema fragment (de_th.py
lines 77-82). -/
def de_th_MISSING_required : List String :=
  ["valid_year", "area_last_year", "tk10", "bnk"]

/-- The properties of the de_th missing-schema fragment (de_th.py
lines 83-119). -/
def de_th_MISSING_properties : List (String × PropSchema) :=
  [("valid_year",
    { type := "int16", exclusiveMinimum := none, maximum := none, items := none }),
   ("flik_last_year",
    { type := "array", exclusiveMinimum := none, maximum := none,
      items := some { type := "string", minLength := some 16, maxLength := some 16,
                      pattern := some "^[A-Z]\x7b2\x7d[A-Z0-9]\x7b2\x7d[A-Z0-9]\x7b2\x7d[A-Z0-9]\x7b10\x7d$" } }),
   ("area_last_year",
    { type := "float", exclusiveMinimum := some 0, maximum := some 100000, items := none }),
   ("tk10",
    { type := "string", exclusiveMinimum := none, maximum := none, items := none }),
   ("afo",
    { type := "boolean", exclusiveMinimum := none, maximum := none, items := none }),
   ("bnk",
    { type := "string", exclusiveMinimum := none, maximum := none, items := none }),
   ("kond_le",
    { type := "boolean", exclusiveMinimum := none, maximum := none, items := none }),
   ("change",
    { type := "boolean", exclusiveMinimum := none, maximum := none, items := none })]

/-- The fi source-to-target column map (fi.py lines 24-31). -/
def fi_COLUMNS : List (String × String) :=
  [("geometry", "geometry"),
   ("PERUSLOHKOTUNNUS", "id"),
   ("LOHKONUMERO", "block_id"),
   ("area", "area"),
   ("KASVIKOODI", "crop_code"),
   ("KASVIKOODI_SELITE_FI", "crop_name")]

/-- Model of pandas.to_datetime on a column of years with format %Y
(fi.py line 36): an integer or digit-string year becomes the first of
January of that year; the fi call site does not pass utc=True, so the
resulting timestamps are timezone-aware exactly when utc is requested —
for fi, they are naive. -/
def toDatetimeYear (utc : Bool) (col : List Value) : Option (List Value) :=
  optTraverse (fun v =>
    match v with
    | Value.null => some Value.null
    | Value.str s => (natFromDigits s.toList).map (fun y => Value.dt y 1 1 utc)
    | Value.intV n => if n < 0 then none else some (Value.dt n.toNat 1 1 utc)
    | _ => none) col

/-- Model of the geoseries make_valid call (fi.py line 37): the external
geometry repair operation, passed in as the parameter mv, applied to every
geometry cell; a non-geometry cell fails. -/
def makeValidCol (mv : Nat → Nat) (col : List Value) : Option (List Value) :=
  optTraverse (fun v =>
    match v with
    | Value.geomV g => some (Value.geomV (mv g))
    | _ => none) col

/-- Model of the gdf.area geoseries property (fi.py line 38): the external
area computation, passed in as the parameter ar, applied to every geometry
cell of the current geometry column. -/
def areaCol (ar : Nat → ℚ) (col : List Value) : Option (List ℚ) :=
  optTraverse (fun v =>
    match v with
    | Value.geomV g => some (ar g)
    | _ => none) col

/-- Model of np.where applied on fi.py line 38, for one row: a PINTA_ALA
cell equal to 0 is replaced by the geometry area divided by 10000; any
other numeric cell is kept; NaN compares unequal to 0 and is kept. -/
def pintaSelect : Value → ℚ → Option Value
  | Value.ratV q, a => some (if q = 0 then Value.ratV (a / 10000) else Value.ratV q)
  | Value.null, _ => some Value.null
  | _, _ => none

/-- The elementwise selection of fi.py line 38 over whole columns; numpy
requires the shapes to agree, so a length mismatch fails. -/
def whereArea : List Value → List ℚ → Option (List Value)
  | [], [] => some []
  | p :: ps, a :: as =>
    match pintaSelect p a, whereArea ps as with
    | some w, some ws => some (w :: ws)
    | _, _ => none
  | _, _ => none

/-- The fi global migration (fi.py lines 34-39): derive the
determination_datetime column from VUOSI (tz-naive, no utc argument),
repair the geometry column, and set the area column from PINTA_ALA,
falling back to the computed geometry area divided by 10000 where
PINTA_ALA is 0. -/
def fi_migrate (mv : Nat → Nat) (ar : Nat → ℚ) (t : Table) : Option Table :=
  (lookupCol t "VUOSI").bind (fun vuosi =>
  (toDatetimeYear false vuosi).bind (fun dtCol =>
  let t1 := setCol t "determination_datetime" dtCol
  (lookupCol t1 "geometry").bind (fun geoms =>
  (makeValidCol mv geoms).bind (fun geoms2 =>
  let t2 := setCol t1 "geometry" geoms2
  (lookupCol t2 "PINTA_ALA").bind (fun pinta =>
  (areaCol ar geoms2).bind (fun areas =>
  (whereArea pinta areas).map (fun area =>
  setCol t2 "area" area)))))))

/-- Modelled from the spec: the surviving rows of one column under a
row-filter mask (convert_utils, the Row Filter Engine of section 4.2, is
not under src): keep the cells whose mask entry holds, preserving order. -/
def maskFilter (mask : List Bool) (col : List Value) : List Value :=
  ((mask.zip col).filter (fun p => p.1)).map (fun p => p.2)

/-- Modelled from the spec: one declared row filter of the Row Filter
Engine (section 4.2): the predicate over the named column yields a mask
applied to every column; a missing filter column is a configuration
error. -/
def applyFilter (t : Table) (name : String) (pred : Value → Bool) : Option Table :=
  (lookupCol t name).map (fun col =>
  t.map (fun c => (c.1, maskFilter (col.map pred) c.2)))

/-- Modelled from the spec: the Row Filter Engine (section 4.2): declared
filters compose by logical AND, i.e. they are applied in sequence. -/
def applyFilters : List (String × (Value → Bool)) → Table → Option Table
  | [], t => some t
  | f :: fs, t => (applyFilter t f.1 f.2).bind (applyFilters fs)

/-- Modelled from the spec: one declared column migration of the Column
Migration Engine (section 4.3): replace the named column with the
transform of its values; a missing column is a configuration error
(section 7). -/
def applyMigration (t : Table) (name : String) (f : List Value → List Value) : Option Table :=
  (lookupCol t name).map (fun col => setCol t name (f col))

/-- Modelled from the spec: the Column Migration Engine (section 4.3):
the declared migrations applied in sequence. -/
def applyMigrations : List (String × (List Value → List Value)) → Table → Option Table
  | [], t => some t
  | m :: ms, t => (applyMigration t m.1 m.2).bind (applyMigrations ms)

/-- Modelled from the spec: Column Projection (section 4.4, stage steps
4-6): every mapped source column is renamed to its target and every
unmapped column is dropped; a mapped source column that does not exist is
a configuration error.  Both descriptors under src map each source column
to exactly one target, so duplication (list-valued targets) does not
arise. -/
def projectColumns (cmap : List (String × String)) (t : Table) : Option Table :=
  optTraverse (fun st => (lookupCol t st.1).map (fun col => (st.2, col))) cmap

/-- Modelled from the spec: the Pipeline Orchestrator stage order 1-6 of
section 4.1 up to column pruning: global migration, then row filters, then
column migrations, then column projection. -/
def runStages (migration : Table → Option Table)
    (fs : List (String × (Value → Bool)))
    (ms : List (String × (List Value → List Value)))
    (cmap : List (String × String)) (t : Table) : Option Table :=
  (migration t).bind (fun t1 =>
  (applyFilters fs t1).bind (fun t2 =>
  (applyMigrations ms t2).bind (fun t3 =>
  projectColumns cmap t3)))

/-- The row-and-column stages of the de_th conversion, assembling the
descriptor pieces of de_th.py. -/
def de_th_stages (t : Table) : Option Table :=
  runStages de_th_migrate de_th_COLUMN_FILTERS de_th_COLUMN_MIGRATIONS de_th_COLUMNS t

/-- The row-and-column stages of the fi conversion, assembling the
descriptor pieces of fi.py (fi declares no row filters and no column
migrations). -/
def fi_stages (mv : Nat → Nat) (ar : Nat → ℚ) (t : Table) : Option Table :=
  runStages (fi_migrate mv ar) [] [] fi_COLUMNS t

/-- Outcome of coercing one value. -/
inductive CoerceResult where
  | fatal : CoerceResult
  | warnNull : CoerceResult
  | ok : Value → CoerceResult
deriving DecidableEq, Repr

/-- Modelled from the spec: the numeric range check of the Type Coercion
Engine (section 4.6): a value violating a declared exclusiveMinimum or
maximum is a fatal error for a required property and warning-plus-null for
an optional one. -/
def coerceNumeric (required : Bool) (s : PropSchema) (q : ℚ) : CoerceResult :=
  let aboveMin := match s.exclusiveMinimum with
    | some m => decide (m < q)
    | none => true
  let belowMax := match s.maximum with
    | some m => decide (q ≤ m)
    | none => true
  if aboveMin && belowMax then CoerceResult.ok (Value.ratV q)
  else if required then CoerceResult.fatal
  else CoerceResult.warnNull

/-- Look up a dataset-declared property schema by target name. -/
def lookupProp (ps : List (String × PropSchema)) (name : String) : Option PropSchema :=
  (ps.find? (fun p => p.1 == name)).map (fun p => p.2)

/-- Look up a target name in a source-to-target column map. -/
def lookupStr (m : List (String × String)) (k : String) : Option String :=
  (m.find? (fun p => p.1 == k)).map (fun p => p.2)

/-- Whether a value is a boolean or a null. -/
def isBoolOrNull : Value → Bool
  | Value.boolV _ => true
  | Value.null => true
  | _ => false

/-- Whether a value is a timezone-aware datetime instant. -/
def isTzAware : Value → Bool
  | Value.dt _ _ _ tz => tz
  | _ => false

/-- Whether a value is a timezone-naive datetime. -/
def isNaiveDatetime : Value → Bool
  | Value.dt _ _ _ tz => !tz
  | _ => false

theorem lookupCol_setCol_same (t : Table) (n : String) (col : List Value) :
    lookupCol (setCol t n col) n = some col := by
  induction t with
  | nil => simp [setCol, lookupCol]
  | cons c t ih =>
    by_cases h : c.1 = n
    · simp [setCol, lookupCol, h]
    · simp [setCol, lookupCol, h, ih]

theorem lookupCol_setCol_other (t : Table) (n m : String) (col : List Value) (h : m ≠ n) :
    lookupCol (setCol t n col) m = lookupCol t m := by
  induction t with
  | nil => simp [setCol, lookupCol, Ne.symm h]
  | cons c t ih =>
    by_cases hc : c.1 = n
    · have hcm : c.1 ≠ m := by rw [hc]; exact Ne.symm h
      simp [setCol, lookupCol, hc, Ne.symm h, hcm]
    · simp [setCol, lookupCol, hc, ih]

theorem optTraverse_mem {α β : Type} (f : α → Option β) (l : List α) (out : List β)
    (h : optTraverse f l = some out) : ∀ b ∈ out, ∃ a ∈ l, f a = some b := by
  induction l generalizing out with
  | nil =>
    simp [optTraverse] at h
    subst h
    simp
  | cons a l ih =>
    simp only [optTraverse] at h
    cases hfa : f a with
    | none => rw [hfa] at h; simp at h
    | some b0 =>
      cases hfl : optTraverse f l with
      | none => rw [hfa, hfl] at h; simp at h
      | some bs =>
        rw [hfa, hfl] at h
        simp only [Option.some.injEq] at h
        subst h
        intro b hb
        rcases List.mem_cons.mp hb with hb | hb
        · exact ⟨a, List.mem_cons_self a l, by rw [hfa, hb]⟩
        · obtain ⟨a2, ha2, hfa2⟩ := ih bs hfl b hb
          exact ⟨a2, List.mem_cons_of_mem a ha2, hfa2⟩

theorem projectColumns_names (cmap : List (String × String)) (t r : Table)
    (h : projectColumns cmap t = some r) :
    ∀ n ∈ colNames r, n ∈ cmap.map Prod.snd := by
  intro n hn
  simp only [colNames, List.mem_map] at hn
  obtain ⟨c, hc, hcn⟩ := hn
  obtain ⟨st, hst, hfst⟩ := optTraverse_mem _ _ _ h c hc
  simp only [Option.map_eq_some'] at hfst
  obtain ⟨col, _, hcol⟩ := hfst
  subst hcol
  subst hcn
  exact List.mem_map.mpr ⟨st, hst, rfl⟩

theorem runStages_eq (mig : Table → Option Table)
    (fs : List (String × (Value → Bool)))
    (ms : List (String × (List Value → List Value)))
    (cmap : List (String × String)) (t r : Table)
    (h : runStages mig fs ms cmap t = some r) :
    ∃ t1 t2 t3, mig t = some t1 ∧ applyFilters fs t1 = some t2 ∧
      applyMigrations ms t2 = some t3 ∧ projectColumns cmap t3 = some r := by
  simp only [runStages, Option.bind_eq_some] at h
  obtain ⟨t1, h1, t2, h2, t3, h3, h4⟩ := h
  exact ⟨t1, t2, t3, h1, h2, h3, h4⟩

theorem applyFilters_nil (t : Table) : applyFilters [] t = some t := rfl

theorem applyMigrations_nil (t : Table) : applyMigrations [] t = some t := rfl

theorem de_th_migrate_eq (t r : Table) (h : de_th_migrate t = some r) :
    ∃ col col2, lookupCol t "GEO_UPDAT" = some col ∧ toDatetimeDMY true col = some col2 ∧
      r = setCol t "GEO_UPDAT" col2 := by
  simp only [de_th_migrate, Option.bind_eq_some, Option.map_eq_some'] at h
  obtain ⟨col, h1, col2, h2, h3⟩ := h
  exact ⟨col, col2, h1, h2, h3.symm⟩

theorem fi_migrate_eq (mv : Nat → Nat) (ar : Nat → ℚ) (t r : Table)
    (h : fi_migrate mv ar t = some r) :
    ∃ vuosi dtCol geoms geoms2 pinta areas area,
      lookupCol t "VUOSI" = some vuosi ∧
      toDatetimeYear false vuosi = some dtCol ∧
      lookupCol (setCol t "determination_datetime" dtCol) "geometry" = some geoms ∧
      makeValidCol mv geoms = some geoms2 ∧
      lookupCol (setCol (setCol t "determination_datetime" dtCol) "geometry" geoms2)
        "PINTA_ALA" = some pinta ∧
      areaCol ar geoms2 = some areas ∧
      whereArea pinta areas = some area ∧
      r = setCol (setCol (setCol t "determination_datetime" dtCol) "geometry" geoms2)
        "area" area := by
  simp only [fi_migrate, Option.bind_eq_some, Option.map_eq_some'] at h
  obtain ⟨vuosi, h1, dtCol, h2, geoms, h3, geoms2, h4, pinta, h5, areas, h6, area, h7, h8⟩ := h
  exact ⟨vuosi, dtCol, geoms, geoms2, pinta, areas, area, h1, h2, h3, h4, h5, h6, h7, h8.symm⟩

theorem afo_cell (v : Value) :
    fillna (Value.boolV false) (mapDict afoDict v) =
      if v = Value.str "J" then Value.boolV true else Value.boolV false := by
  cases v with
  | str s =>
    by_cases h : s = "J"
    · subst h; rfl
    · have hb : ("J" == s) = false := by simp [Ne.symm h]
      simp [mapDict, afoDict, fillna, List.find?, h, hb]
  | null => rfl
  | boolV b => rfl
  | intV n => rfl
  | ratV q => rfl
  | strList l => rfl
  | dt y m d tz => rfl
  | geomV g => rfl

theorem aenderung_cell (v : Value) :
    mapDict aenderungDict v =
      if v = Value.str "Geaendert" then Value.boolV true
      else if v = Value.str "Unveraendert" then Value.boolV false
      else Value.null := by
  cases v with
  | str s =>
    by_cases h1 : s = "Geaendert"
    · subst h1; rfl
    · by_cases h2 : s = "Unveraendert"
      · subst h2; rfl
      · by_cases h3 : s = "Neu"
        · subst h3; rfl
        · have hb1 : ("Geaendert" == s) = false := by simp [Ne.symm h1]
          have hb2 : ("Unveraendert" == s) = false := by simp [Ne.symm h2]
          have hb3 : ("Neu" == s) = false := by simp [Ne.symm h3]
          simp [mapDict, aenderungDict, List.find?, h1, h2, hb1, hb2, hb3]
  | null => rfl
  | boolV b => rfl
  | intV n => rfl
  | ratV q => rfl
  | strList l => rfl
  | dt y m d tz => rfl
  | geomV g => rfl

theorem aenderung_cell_boolOrNull (v : Value) :
    isBoolOrNull (mapDict aenderungDict v) = true := by
  rw [aenderung_cell]
  by_cases h1 : v = Value.str "Geaendert" <;> by_cases h2 : v = Value.str "Unveraendert" <;>
    simp [h1, h2, isBoolOrNull]

theorem toDatetimeDMY_shape (utc : Bool) (col out : List Value)
    (h : toDatetimeDMY utc col = some out) :
    ∀ v ∈ out, v = Value.null ∨ ∃ y m d, v = Value.dt y m d utc := by
  intro v hv
  obtain ⟨a, _, hfa⟩ := optTraverse_mem _ _ _ h v hv
  cases a with
  | null => simp at hfa; exact Or.inl hfa.symm
  | str s =>
    simp only [Option.map_eq_some'] at hfa
    obtain ⟨p, _, hp⟩ := hfa
    exact Or.inr ⟨p.2.2, p.2.1, p.1, hp.symm⟩
  | boolV b => simp at hfa
  | intV n => simp at hfa
  | ratV q => simp at hfa
  | strList l => simp at hfa
  | dt y m d tz => simp at hfa
  | geomV g => simp at hfa

theorem toDatetimeYear_shape (utc : Bool) (col out : List Value)
    (h : toDatetimeYear utc col = some out) :
    ∀ v ∈ out, v = Value.null ∨ ∃ y, v = Value.dt y 1 1 utc := by
  intro v hv
  obtain ⟨a, _, hfa⟩ := optTraverse_mem _ _ _ h v hv
  cases a with
  | null => simp at hfa; exact Or.inl hfa.symm
  | str s =>
    simp only [Option.map_eq_some'] at hfa
    obtain ⟨y, _, hy⟩ := hfa
    exact Or.inr ⟨y, hy.symm⟩
  | intV n =>
    by_cases hn : n < 0
    · simp [hn] at hfa
    · simp [hn] at hfa
      exact Or.inr ⟨n.toNat, hfa.symm⟩
  | boolV b => simp at hfa
  | ratV q => simp at hfa
  | strList l => simp at hfa
  | dt y m d tz => simp at hfa
  | geomV g => simp at hfa

theorem makeValidCol_map (mv : Nat → Nat) (gs : List Nat) :
    makeValidCol mv (gs.map Value.geomV) = some ((gs.map mv).map Value.geomV) := by
  induction gs with
  | nil => rfl
  | cons g gs ih =>
    simp only [makeValidCol] at ih
    simp only [makeValidCol, List.map_cons, optTraverse, ih]

theorem areaCol_map (ar : Nat → ℚ) (gs : List Nat) :
    areaCol ar (gs.map Value.geomV) = some (gs.map ar) := by
  induction gs with
  | nil => rfl
  | cons g gs ih =>
    simp only [areaCol] at ih
    simp only [areaCol, List.map_cons, optTraverse, ih]

theorem whereArea_map (ps : List ℚ) (as : List ℚ) (h : ps.length = as.length) :
    whereArea (ps.map Value.ratV) as =
      some (List.zipWith
        (fun p a => if p = 0 then Value.ratV (a / 10000) else Value.ratV p) ps as) := by
  induction ps generalizing as with
  | nil =>
    cases as with
    | nil => rfl
    | cons a as => simp at h
  | cons p ps ih =>
    cases as with
    | nil => simp at h
    | cons a as =>
      simp only [List.length_cons, Nat.succ.injEq] at h
      simp only [List.map_cons, whereArea, pintaSelect, List.zipWith_cons_cons, ih as h]

theorem applyMigrations_lookup_notin (ms : List (String × (List Value → List Value)))
    (k : String) (hk : k ∉ ms.map Prod.fst) (t r : Table)
    (h : applyMigrations ms t = some r) : lookupCol r k = lookupCol t k := by
  induction ms generalizing t with
  | nil =>
    simp only [applyMigrations, Option.some.injEq] at h
    subst h
    rfl
  | cons m ms ih =>
    simp only [applyMigrations, Option.bind_eq_some] at h
    obtain ⟨t2, h1, h2⟩ := h
    simp only [applyMigration, Option.map_eq_some'] at h1
    obtain ⟨col, _, ht2⟩ := h1
    simp only [List.map_cons, List.mem_cons, not_or] at hk
    rw [ih hk.2 t2 h2, ← ht2, lookupCol_setCol_other _ _ _ _ hk.1]

theorem applyMigrations_lookup_key (ms : List (String × (List Value → List Value)))
    (hnd : (ms.map Prod.fst).Nodup) (k : String) (f : List Value → List Value)
    (hk : (k, f) ∈ ms) (t r : Table) (c : List Value)
    (h : applyMigrations ms t = some r) (hc : lookupCol t k = some c) :
    lookupCol r k = some (f c) := by
  induction ms generalizing t with
  | nil => simp at hk
  | cons m ms ih =>
    simp only [applyMigrations, Option.bind_eq_some] at h
    obtain ⟨t2, h1, h2⟩ := h
    simp only [applyMigration, Option.map_eq_some'] at h1
    obtain ⟨col, hcol, ht2⟩ := h1
    simp only [List.map_cons, List.nodup_cons] at hnd
    rcases List.mem_cons.mp hk with he | hm
    · have hk1 : m.1 = k := by rw [← he]
      have hf2 : m.2 = f := by rw [← he]
      rw [hk1] at hcol ht2
      rw [hcol] at hc
      have hcc : col = c := by injection hc
      have hnot : k ∉ ms.map Prod.fst := by rw [← hk1]; exact hnd.1
      rw [applyMigrations_lookup_notin ms k hnot t2 r h2, ← ht2, hcc, hf2,
        lookupCol_setCol_same]
    · have hne : k ≠ m.1 := by
        intro e
        exact hnd.1 (e ▸ List.mem_map.mpr ⟨(k, f), hm, rfl⟩)
      refine ih hnd.2 hm t2 h2 ?_
      rw [← ht2, lookupCol_setCol_other _ _ _ _ hne, hc]

/-- A one-row sample fi source table with all columns the fi descriptor
touches; PINTA_ALA is nonzero. -/
def fiT0 : Table :=
  [("geometry", [Value.geomV 0]),
   ("PERUSLOHKOTUNNUS", [Value.str "a"]),
   ("LOHKONUMERO", [Value.intV 1]),
   ("KASVIKOODI", [Value.str "c"]),
   ("KASVIKOODI_SELITE_FI", [Value.str "n"]),
   ("VUOSI", [Value.intV 2023]),
   ("PINTA_ALA", [Value.ratV 1])]

/-- The result of the fi global migration on the sample table, with the
identity as make_valid and a constant-zero area computation. -/
def fiT0mig : Table :=
  [("geometry", [Value.geomV 0]),
   ("PERUSLOHKOTUNNUS", [Value.str "a"]),
   ("LOHKONUMERO", [Value.intV 1]),
   ("KASVIKOODI", [Value.str "c"]),
   ("KASVIKOODI_SELITE_FI", [Value.str "n"]),
   ("VUOSI", [Value.intV 2023]),
   ("PINTA_ALA", [Value.ratV 1]),
   ("determination_datetime", [Value.dt 2023 1 1 false]),
   ("area", [Value.ratV 1])]

/-- The final fi output table for the sample table. -/
def fiOut : Table :=
  [("geometry", [Value.geomV 0]),
   ("id", [Value.str "a"]),
   ("block_id", [Value.intV 1]),
   ("area", [Value.ratV 1]),
   ("crop_code", [Value.str "c"]),
   ("crop_name", [Value.str "n"])]

/-- A one-row sample de_th table holding only the GEO_UPDAT column. -/
def deThGeoT : Table := [("GEO_UPDAT", [Value.str "01.02.2021"])]

/-- A three-row sample de_th source table with all columns the de_th
descriptor touches; the LF column is LF, LF, XX. -/
def deThT0 : Table :=
  [("geometry", [Value.geomV 1, Value.geomV 2, Value.geomV 3]),
   ("BEZUGSJAHR", [Value.intV 2024, Value.intV 2024, Value.intV 2024]),
   ("FBI", [Value.str "a", Value.str "b", Value.str "c"]),
   ("FBI_KURZ", [Value.str "a", Value.str "b", Value.str "c"]),
   ("FB_FLAECHE", [Value.ratV 1, Value.ratV 2, Value.ratV 3]),
   ("FBI_VJ", [Value.str "a, b", Value.str "c", Value.str "d"]),
   ("FB_FL_VJ", [Value.ratV 1, Value.ratV 2, Value.ratV 3]),
   ("TK10", [Value.str "t", Value.str "t", Value.str "t"]),
   ("AFO", [Value.str "J", Value.null, Value.str "N"]),
   ("LF", [Value.str "LF", Value.str "LF", Value.str "XX"]),
   ("BNK", [Value.str "AL", Value.str "GL", Value.str "NW"]),
   ("KOND_LE", [Value.null, Value.str "J", Value.null]),
   ("AENDERUNG", [Value.str "Geaendert", Value.str "Neu", Value.str "Unveraendert"]),
   ("GEO_UPDAT", [Value.str "01.02.2021", Value.str "15.06.2020", Value.null])]

/-- The final de_th output table for the sample table: the third row is
filtered away and the LF column is pruned. -/
def deThOut : Table :=
  [("geometry", [Value.geomV 1, Value.geomV 2]),
   ("valid_year", [Value.intV 2024, Value.intV 2024]),
   ("flik", [Value.str "a", Value.str "b"]),
   ("id", [Value.str "a", Value.str "b"]),
   ("area", [Value.ratV 1, Value.ratV 2]),
   ("flik_last_year", [Value.strList ["a", "b"], Value.strList ["c"]]),
   ("area_last_year", [Value.ratV 1, Value.ratV 2]),
   ("tk10", [Value.str "t", Value.str "t"]),
   ("afo", [Value.boolV true, Value.boolV false]),
   ("bnk", [Value.str "AL", Value.str "GL"]),
   ("kond_le", [Value.boolV false, Value.boolV true]),
   ("change", [Value.boolV true, Value.null]),
   ("determination_datetime", [Value.dt 2021 2 1 true, Value.dt 2020 6 15 true])]

/-- C1: the claim states that both the de_th GEO_UPDAT datetime column and
the fi determination_datetime column are timezone-aware instants.  This is
false for fi: fi.py line 36 calls the datetime parser without utc=True, so
on a concrete table the determination_datetime value produced by the fi
global migration is a timezone-naive datetime. -/
theorem c1_counterexample :
    (fi_migrate (fun g => g) (fun _ => 0) fiT0).bind
        (fun r => lookupCol r "determination_datetime") =
      some [Value.dt 2023 1 1 false] ∧
    isTzAware (Value.dt 2023 1 1 false) = false := ⟨rfl, rfl⟩

/-- C1 (amended): every GEO_UPDAT cell produced by the de_th global
migration is null or a timezone-aware instant (the call passes utc=True),
while every determination_datetime cell produced by the fi global
migration is null or a timezone-naive datetime (the call does not pass
utc). -/
theorem c1_theorem :
    (∀ t r col, de_th_migrate t = some r → lookupCol r "GEO_UPDAT" = some col →
      ∀ v ∈ col, v = Value.null ∨ isTzAware v = true) ∧
    (∀ (mv : Nat → Nat) (ar : Nat → ℚ) t r col, fi_migrate mv ar t = some r →
      lookupCol r "determination_datetime" = some col →
      ∀ v ∈ col, v = Value.null ∨ isNaiveDatetime v = true) := by
  constructor
  · intro t r col h hcol v hv
    obtain ⟨c0, c2, hc0, hc2, hr⟩ := de_th_migrate_eq t r h
    rw [hr, lookupCol_setCol_same] at hcol
    have hcc : c2 = col := by injection hcol
    subst hcc
    rcases toDatetimeDMY_shape true c0 c2 hc2 v hv with h1 | ⟨y, m, d, h2⟩
    · exact Or.inl h1
    · subst h2; exact Or.inr rfl
  · intro mv ar t r col h hcol v hv
    obtain ⟨vuosi, dtCol, geoms, geoms2, pinta, areas, area, h1, h2, h3, h4, h5, h6, h7, hr⟩ :=
      fi_migrate_eq mv ar t r h
    rw [hr, lookupCol_setCol_other _ _ _ _ (by decide),
      lookupCol_setCol_other _ _ _ _ (by decide), lookupCol_setCol_same] at hcol
    have hcc : dtCol = col := by injection hcol
    subst hcc
    rcases toDatetimeYear_shape false vuosi dtCol h2 v hv with h1v | ⟨y, h2v⟩
    · exact Or.inl h1v
    · subst h2v; exact Or.inr rfl

/-- C1 witness: the amended theorem applied to the concrete sample
tables. -/
theorem c1_witness :
    (Value.dt 2021 2 1 true = Value.null ∨ isTzAware (Value.dt 2021 2 1 true) = true) ∧
    (Value.dt 2023 1 1 false = Value.null ∨ isNaiveDatetime (Value.dt 2023 1 1 false) = true) :=
  ⟨c1_theorem.1 deThGeoT [("GEO_UPDAT", [Value.dt 2021 2 1 true])] [Value.dt 2021 2 1 true]
      (by rfl) (by rfl) _ (by simp),
   c1_theorem.2 (fun g => g) (fun _ => 0) fiT0 fiT0mig [Value.dt 2023 1 1 false]
      (by rfl) (by rfl) _ (by simp)⟩

/-- C2: the de_th AENDERUNG migration maps the column with values
Geaendert, Unveraendert, Neu to exactly true, false, null, in order. -/
theorem c2_theorem :
    aenderungMigration [Value.str "Geaendert", Value.str "Unveraendert", Value.str "Neu"] =
      [Value.boolV true, Value.boolV false, Value.null] := by decide

/-- C3: on a table whose LF column is LF, LF, XX the de_th row filter
keeps exactly the first two rows of every column, preserving order, and
the LF column is absent from the final de_th output because LF is not a
target of the de_th column map. -/
theorem c3_theorem :
    (∀ t : Table, lookupCol t "LF" = some [Value.str "LF", Value.str "LF", Value.str "XX"] →
      applyFilters de_th_COLUMN_FILTERS t =
        some (t.map (fun c => (c.1, maskFilter [true, true, false] c.2)))) ∧
    (∀ c : List Value, c.length = 3 →
      maskFilter [true, true, false] c = c.take 2 ∧
        (maskFilter [true, true, false] c).length = 2) ∧
    (∀ t r : Table, de_th_stages t = some r → "LF" ∉ colNames r) ∧
    "LF" ∉ de_th_COLUMNS.map Prod.snd := by
  refine ⟨?_, ?_, ?_, by decide⟩
  · intro t h
    have hmask : [Value.str "LF", Value.str "LF", Value.str "XX"].map lfPredicate =
        [true, true, false] := by decide
    simp only [de_th_COLUMN_FILTERS, applyFilters, applyFilter, h, Option.map_some',
      hmask, Option.some_bind]
  · intro c hc
    rcases c with _ | ⟨a, c⟩
    · simp at hc
    rcases c with _ | ⟨b, c⟩
    · simp at hc
    rcases c with _ | ⟨d, c⟩
    · simp at hc
    rcases c with _ | ⟨e, c⟩
    · exact ⟨rfl, rfl⟩
    · simp at hc
  · intro t r h hlf
    obtain ⟨t1, t2, t3, _, _, _, hp⟩ := runStages_eq _ _ _ _ _ _ h
    exact absurd (projectColumns_names _ _ _ hp "LF" hlf) (by decide)

/-- C3 witness: the filter and pruning facts applied to the concrete
three-row sample table. -/
theorem c3_witness :
    applyFilters de_th_COLUMN_FILTERS deThT0 =
      some (deThT0.map (fun c => (c.1, maskFilter [true, true, false] c.2))) ∧
    "LF" ∉ colNames deThOut :=
  ⟨c3_theorem.1 deThT0 (by rfl), c3_theorem.2.2.1 deThT0 deThOut (by rfl)⟩

/-- C4: the boolean-typed targets of the de_th missing-schema fragment are
exactly afo, kond_le and change; the AFO and KOND_LE migrations map every
cell to true exactly when it is the string J and to false otherwise
(including missing cells), and the AENDERUNG migration maps every cell to
a boolean or a null. -/
theorem c4_theorem :
    (de_th_MISSING_properties.filter (fun p => p.2.type == "boolean")).map (fun p => p.1) =
      ["afo", "kond_le", "change"] ∧
    (∀ col : List Value, afoMigration col =
      col.map (fun v => if v = Value.str "J" then Value.boolV true else Value.boolV false)) ∧
    (∀ col : List Value, kondLeMigration col =
      col.map (fun v => if v = Value.str "J" then Value.boolV true else Value.boolV false)) ∧
    (∀ col : List Value, aenderungMigration col = col.map (mapDict aenderungDict)) ∧
    (∀ v : Value, isBoolOrNull (mapDict aenderungDict v) = true) := by
  refine ⟨by decide, ?_, ?_, fun col => rfl, aenderung_cell_boolOrNull⟩
  · intro col
    rw [afoMigration, List.map_map]
    exact List.map_congr_left (fun v _ => afo_cell v)
  · intro col
    rw [kondLeMigration, List.map_map]
    exact List.map_congr_left (fun v _ => afo_cell v)

/-- C5: area_last_year is the target of FB_FL_VJ, it is declared required
with exclusiveMinimum 0 and maximum 100000, and coercing the value 0
against that schema is fatal when the property is required and yields a
warning-plus-null when it is optional. -/
theorem c5_theorem :
    lookupStr de_th_COLUMNS "FB_FL_VJ" = some "area_last_year" ∧
    "area_last_year" ∈ de_th_MISSING_required ∧
    lookupProp de_th_MISSING_properties "area_last_year" =
      some { type := "float", exclusiveMinimum := some 0, maximum := some 100000,
             items := none } ∧
    coerceNumeric true
      { type := "float", exclusiveMinimum := some 0, maximum := some 100000, items := none }
      0 = CoerceResult.fatal ∧
    coerceNumeric false
      { type := "float", exclusiveMinimum := some 0, maximum := some 100000, items := none }
      0 = CoerceResult.warnNull := by decide

/-- C6: every declared de_th column migration returns a column of the same
length as its input, so the fatal cardinality error is unreachable for
these transforms. -/
theorem c6_theorem : ∀ col : List Value,
    (afoMigration col).length = col.length ∧
    (kondLeMigration col).length = col.length ∧
    (aenderungMigration col).length = col.length ∧
    (fbiVjMigration col).length = col.length := by
  intro col
  refine ⟨?_, ?_, ?_, ?_⟩ <;>
    simp [afoMigration, kondLeMigration, aenderungMigration, fbiVjMigration]

/-- C7: every column of the final fi output is a target name of the fi
column map; determination_datetime, although created by the fi global
migration, is not a target and is absent after pruning. -/
theorem c7_theorem : ∀ (mv : Nat → Nat) (ar : Nat → ℚ) (t r : Table),
    fi_stages mv ar t = some r →
    (∀ n ∈ colNames r, n ∈ fi_COLUMNS.map Prod.snd) ∧
    "determination_datetime" ∉ colNames r ∧
    (∀ t1, fi_migrate mv ar t = some t1 →
      lookupCol t1 "determination_datetime" ≠ none) := by
  intro mv ar t r h
  obtain ⟨t1, t2, t3, hm, hf, hmg, hp⟩ := runStages_eq _ _ _ _ _ _ h
  refine ⟨projectColumns_names _ _ _ hp, ?_, ?_⟩
  · intro hd
    exact absurd (projectColumns_names _ _ _ hp _ hd) (by decide)
  · intro t1b hmb
    obtain ⟨vuosi, dtCol, geoms, geoms2, pinta, areas, area, h1, h2, h3, h4, h5, h6, h7, hr⟩ :=
      fi_migrate_eq mv ar t t1b hmb
    rw [hr, lookupCol_setCol_other _ _ _ _ (by decide),
      lookupCol_setCol_other _ _ _ _ (by decide), lookupCol_setCol_same]
    simp

/-- C7 witness: the pruning fact applied to the concrete one-row fi sample
table. -/
theorem c7_witness : "determination_datetime" ∉ colNames fiOut :=
  (c7_theorem (fun g => g) (fun _ => 0) fiT0 fiOut (by rfl)).2.1

/-- A four-column table exercising all four de_th column migrations. -/
def migT : Table :=
  [("AFO", [Value.str "J"]),
   ("KOND_LE", [Value.null]),
   ("AENDERUNG", [Value.str "Neu"]),
   ("FBI_VJ", [Value.str "a, b"])]

/-- The result of the de_th column migrations on that table. -/
def migTout : Table :=
  [("AFO", [Value.boolV true]),
   ("KOND_LE", [Value.boolV false]),
   ("AENDERUNG", [Value.null]),
   ("FBI_VJ", [Value.strList ["a", "b"]])]

/-- C8: the de_th and fi stage pipelines are deterministic functions of
their input table, and each de_th column migration reads no column other
than the one it transforms: the migrated column is fully determined by the
input values of that column alone, whatever the rest of the table holds. -/
theorem c8_theorem :
    (∀ t1 t2 : Table, t1 = t2 → de_th_stages t1 = de_th_stages t2) ∧
    (∀ (mv : Nat → Nat) (ar : Nat → ℚ) (t1 t2 : Table), t1 = t2 →
      fi_stages mv ar t1 = fi_stages mv ar t2) ∧
    (∀ nm f, (nm, f) ∈ de_th_COLUMN_MIGRATIONS → ∀ (t1 t2 r1 r2 : Table) (c : List Value),
      applyMigrations de_th_COLUMN_MIGRATIONS t1 = some r1 →
      applyMigrations de_th_COLUMN_MIGRATIONS t2 = some r2 →
      lookupCol t1 nm = some c → lookupCol t2 nm = some c →
      lookupCol r1 nm = some (f c) ∧ lookupCol r1 nm = lookupCol r2 nm) := by
  refine ⟨fun t1 t2 h => by rw [h], fun mv ar t1 t2 h => by rw [h], ?_⟩
  intro nm f hmem t1 t2 r1 r2 c h1 h2 hc1 hc2
  have hnd : (de_th_COLUMN_MIGRATIONS.map Prod.fst).Nodup := by decide
  have ha := applyMigrations_lookup_key _ hnd nm f hmem t1 r1 c h1 hc1
  have hb := applyMigrations_lookup_key _ hnd nm f hmem t2 r2 c h2 hc2
  exact ⟨ha, by rw [ha, hb]⟩

/-- C8 witness: determinism and the AFO independence fact applied at
concrete tables. -/
theorem c8_witness :
    de_th_stages deThT0 = de_th_stages deThT0 ∧
    fi_stages (fun g => g) (fun _ => 0) fiT0 = fi_stages (fun g => g) (fun _ => 0) fiT0 ∧
    (lookupCol migTout "AFO" = some (afoMigration [Value.str "J"]) ∧
      lookupCol migTout "AFO" = lookupCol migTout "AFO") :=
  ⟨c8_theorem.1 deThT0 deThT0 rfl,
   c8_theorem.2.1 (fun g => g) (fun _ => 0) fiT0 fiT0 rfl,
   c8_theorem.2.2 "AFO" afoMigration (by simp [de_th_COLUMN_MIGRATIONS]) migT migT
     migTout migTout [Value.str "J"] (by rfl) (by rfl) (by rfl) (by rfl)⟩

/-- C9: in the fi global migration, the output area cell equals PINTA_ALA
where PINTA_ALA is nonzero and equals the computed area of the repaired
geometry divided by 10000 where PINTA_ALA is zero. -/
theorem c9_theorem (mv : Nat → Nat) (ar : Nat → ℚ) (t r : Table)
    (geoms : List Nat) (pintas : List ℚ)
    (hg : lookupCol t "geometry" = some (geoms.map Value.geomV))
    (hp : lookupCol t "PINTA_ALA" = some (pintas.map Value.ratV))
    (hlen : pintas.length = geoms.length)
    (h : fi_migrate mv ar t = some r) :
    lookupCol r "area" = some (List.zipWith
      (fun p g => if p = 0 then Value.ratV (ar (mv g) / 10000) else Value.ratV p)
      pintas geoms) := by
  obtain ⟨vuosi, dtCol, geoms0, geoms2, pinta, areas, area, h1, h2, h3, h4, h5, h6, h7, hr⟩ :=
    fi_migrate_eq mv ar t r h
  rw [lookupCol_setCol_other _ _ _ _ (by decide), hg] at h3
  have h3b : geoms0 = geoms.map Value.geomV := by injection h3 with hh; exact hh.symm
  subst h3b
  rw [makeValidCol_map] at h4
  have h4b : geoms2 = (geoms.map mv).map Value.geomV := by injection h4 with hh; exact hh.symm
  subst h4b
  rw [lookupCol_setCol_other _ _ _ _ (by decide),
    lookupCol_setCol_other _ _ _ _ (by decide), hp] at h5
  have h5b : pinta = pintas.map Value.ratV := by injection h5 with hh; exact hh.symm
  subst h5b
  rw [areaCol_map] at h6
  have h6b : areas = (geoms.map mv).map ar := by injection h6 with hh; exact hh.symm
  subst h6b
  rw [whereArea_map _ _ (by simp [hlen])] at h7
  have h7b : area = List.zipWith
      (fun p a => if p = 0 then Value.ratV (a / 10000) else Value.ratV p)
      pintas ((geoms.map mv).map ar) := by injection h7 with hh; exact hh.symm
  subst h7b
  rw [hr, lookupCol_setCol_same]
  rw [List.map_map, List.zipWith_map_right]
  rfl

/-- A two-row fi sample table whose second PINTA_ALA value is zero. -/
def fiT9 : Table :=
  [("geometry", [Value.geomV 1, Value.geomV 2]),
   ("VUOSI", [Value.intV 2023, Value.intV 2023]),
   ("PINTA_ALA", [Value.ratV 5, Value.ratV 0])]

/-- The fi global migration of that table, with the identity as make_valid
and a constant-zero area computation. -/
def fiT9out : Table :=
  [("geometry", [Value.geomV 1, Value.geomV 2]),
   ("VUOSI", [Value.intV 2023, Value.intV 2023]),
   ("PINTA_ALA", [Value.ratV 5, Value.ratV 0]),
   ("determination_datetime", [Value.dt 2023 1 1 false, Value.dt 2023 1 1 false]),
   ("area", [Value.ratV 5, Value.ratV ((0 : ℚ) / 10000)])]

/-- C9 witness: the area formula at a concrete two-row table exercising
both the nonzero and the zero PINTA_ALA branches. -/
theorem c9_witness :
    lookupCol fiT9out "area" = some (List.zipWith
      (fun p _g => if p = 0 then Value.ratV ((0 : ℚ) / 10000) else Value.ratV p)
      [(5 : ℚ), 0] [1, 2]) :=
  c9_theorem (fun g => g) (fun _ => 0) fiT9 fiT9out [1, 2] [5, 0]
    (by rfl) (by rfl) (by rfl) (by rfl)

/-- C10: the AENDERUNG migration maps every value other than Geaendert and
Unveraendert — not only Neu — to null, whereas the AFO and KOND_LE cell
transform maps every unmapped or missing value to false. -/
theorem c10_theorem :
    (∀ v : Value, v ≠ Value.str "Geaendert" → v ≠ Value.str "Unveraendert" →
      mapDict aenderungDict v = Value.null) ∧
    mapDict aenderungDict (Value.str "Geaendert") = Value.boolV true ∧
    mapDict aenderungDict (Value.str "Unveraendert") = Value.boolV false ∧
    (∀ v : Value, fillna (Value.boolV false) (mapDict afoDict v) =
      if v = Value.str "J" then Value.boolV true else Value.boolV false) := by
  refine ⟨?_, rfl, rfl, afo_cell⟩
  intro v h1 h2
  rw [aenderung_cell, if_neg h1, if_neg h2]

/-- C10 witness: the unmapped value Neu is sent to null. -/
theorem c10_witness : mapDict aenderungDict (Value.str "Neu") = Value.null :=
  c10_theorem.1 (Value.str "Neu") (by decide) (by decide)

end Fiboa
